import Mathlib

/-!
Shallow embedding of the PothosLuaJIT block (src/LuaJITBlock.cpp,
src/LuaJITBlock.hpp, src/ScopedDynLib.hpp, src/LuaJITConfLoader.cpp).

The block hosts one LuaJIT state per node.  `setSource` loads user Lua
source (a literal string, or a file when the string ends in the `.lua`
extension) into `BlockEnv.UserEnv` and binds a named function out of it;
`setPreloadedLibraries` records native library paths; `activate` loads
those libraries; `work` marshals the host's input/output pointer lists
through the embedded `BlockEnv.CallBlockFunction` adapter and, on
success, consumes/produces `workInfo.minElements` elements on every
port.

External collaborators (the Lua parser/runtime, the filesystem, Poco
path joining, the dynamic loader, and the Pothos scheduler's WorkInfo)
are parameters of the embedded operations; the control flow, state
mutation and error mapping are translated from the C++ source.
-/

namespace PothosLuaJIT

/-- The Lua value kinds distinguished by `sol::type` that can appear for
an entry-point lookup in `LuaJITBlock::setSource`. -/
inductive LuaType where
  | nil
  | boolean
  | number
  | string
  | function
  | table
  | userdata
  | thread
  deriving DecidableEq, Repr

/-- Model of `sol::type_name`: the Lua type name string reported in the
"must be a function" diagnostic of `setSource`. -/
def luaTypeName : LuaType → String
  | LuaType.nil => "nil"
  | LuaType.boolean => "boolean"
  | LuaType.number => "number"
  | LuaType.string => "string"
  | LuaType.function => "function"
  | LuaType.table => "table"
  | LuaType.userdata => "userdata"
  | LuaType.thread => "thread"

/-- A value stored in a loaded Lua environment: its `sol::type` plus an
identity for the underlying Lua object (a `sol::object` reference). -/
structure LuaObject where
  ty : LuaType
  ref : Nat
  deriving DecidableEq, Repr

/-- A loaded user environment (`BlockEnv.UserEnv`): named globals of the
chunk, looked up by name as `_lua["BlockEnv"]["UserEnv"][functionName]`
does. -/
abbrev LuaEnv := List (String × LuaObject)

/-- The host-side error taxonomy thrown by the block, one constructor
per distinct C++ throw site:
* `invalidState` — `Pothos::RuntimeException` from the `isActive()`
  guards of `setSource` / `setPreloadedLibraries`;
* `sourceNotFound` — `Pothos::FileNotFoundException(luaSource)`;
* `scriptLoadError` — `Pothos::Exception` raised by `safeLuaCall` when
  loading a chunk fails, carrying the Lua diagnostic;
* `entryPointNotFound` / `entryPointNotCallable` —
  `Pothos::InvalidArgumentException` from the entry-point checks;
* `noFunctionBound` — `Pothos::Exception("LuaJIT function not set.")`;
* `scriptExecutionError` — `Pothos::Exception` raised by `safeLuaCall`
  during `work`, carrying the Lua runtime error text;
* `nativeLibraryLoadError` — the exception thrown by
  `ScopedDynLib::load` (`Poco::SharedLibrary` constructor) in
  `activate`. -/
inductive BlockError where
  | invalidState (msg : String)
  | sourceNotFound (path : String)
  | scriptLoadError (msg : String)
  | entryPointNotFound (functionName : String)
  | entryPointNotCallable (functionName : String) (typeName : String)
  | noFunctionBound
  | scriptExecutionError (msg : String)
  | nativeLibraryLoadError (path : String)
  deriving DecidableEq, Repr

/-- The mutable state of one `LuaJITBlock` node:
`active` is the Pothos lifecycle flag read by `isActive()`;
`functionSet` is `_functionSet`; `blockFcn` is `_blockFcn`; `userEnv`
is `_lua["BlockEnv"]["UserEnv"]`; `dynLibPaths` / `dynLibs` are
`_dynLibPaths` / `_dynLibs` (loaded libraries modelled by their paths);
the cursor lists carry, per declared port, the read cursor advanced by
`consume` and the write cursor advanced by `produce`. -/
structure NodeState where
  active : Bool
  functionSet : Bool
  blockFcn : Option LuaObject
  userEnv : Option LuaEnv
  dynLibPaths : List String
  dynLibs : List String
  inputCursors : List Nat
  outputCursors : List Nat
  deriving DecidableEq, Repr

/-- The `LuaJITBlock` constructor: one port (hence one cursor) per
declared input/output type tag, no function bound, nothing loaded. -/
def makeBlock (inputTypes outputTypes : List String) : NodeState :=
  { active := false
    functionSet := false
    blockFcn := none
    userEnv := none
    dynLibPaths := []
    dynLibs := []
    inputCursors := inputTypes.map (fun _ => 0)
    outputCursors := outputTypes.map (fun _ => 0) }

/-- Model of `Poco::Path(p).getFileName()`: the text after the last path
separator, the whole string when there is none. -/
def pocoFileName (p : String) : String :=
  String.mk (p.data.foldl (fun acc c => if c = '/' then [] else acc ++ [c]) [])

/-- Model of `Poco::Path(p).getExtension()`: the text after the last dot of the
file name, empty when the file name has no dot. -/
def getExtension (p : String) : String :=
  let ext := (pocoFileName p).data.foldl
    (fun acc c => if c = '.' then some [] else acc.map (fun l => l ++ [c]))
    none
  match ext with
  | some cs => String.mk cs
  | none => ""

/-- The body of the `_lua["BlockEnv"]["UserEnv"] = ...` assignment in
`setSource`: dispatch on the `.lua` extension, then on file existence,
then load either the file contents or the literal string as a chunk.
`parse` is the Lua chunk loader (`_lua.load` / `_lua.load_file`),
returning the chunk's environment or a diagnostic; `fileContents`
models the filesystem (`Poco::File::exists` plus the file's text). -/
def loadUserEnv (parse : String → Except String LuaEnv)
    (fileContents : String → Option String) (luaSource : String) :
    Except BlockError LuaEnv :=
  if getExtension luaSource = "lua" then
    match fileContents luaSource with
    | some contents =>
        match parse contents with
        | Except.ok env => Except.ok env
        | Except.error msg => Except.error (BlockError.scriptLoadError msg)
    | none => Except.error (BlockError.sourceNotFound luaSource)
  else
    match parse luaSource with
    | Except.ok env => Except.ok env
    | Except.error msg => Except.error (BlockError.scriptLoadError msg)

/-- Model of `LuaJITBlock::setSource`.  The result pairs the node state after the
call with the exception thrown, if any: a C++ throw leaves already
performed mutations in place, so the state travels with the error.
Order of effects, as in the source: the `isActive` guard throws before
any mutation; a failed load throws before `UserEnv` is assigned; the
entry-point checks run after `UserEnv` is assigned, so their failures
leave the new environment installed but `_blockFcn` / `_functionSet`
untouched. -/
def setSource (parse : String → Except String LuaEnv)
    (fileContents : String → Option String) (st : NodeState)
    (luaSource functionName : String) : NodeState × Option BlockError :=
  if st.active then
    (st, some (BlockError.invalidState "Cannot set source for active block."))
  else
    match loadUserEnv parse fileContents luaSource with
    | Except.error e => (st, some e)
    | Except.ok env =>
        let st1 := { st with userEnv := some env }
        match env.lookup functionName with
        | none => (st1, some (BlockError.entryPointNotFound functionName))
        | some obj =>
            if obj.ty = LuaType.function then
              ({ st1 with blockFcn := some obj, functionSet := true }, none)
            else
              (st1, some (BlockError.entryPointNotCallable functionName
                (luaTypeName obj.ty)))

/-- Model of `LuaJITBlock::setPreloadedLibraries`: idle-only; clears the loaded
set and replaces the pending path list. -/
def setPreloadedLibraries (st : NodeState) (libraries : List String) :
    NodeState × Option BlockError :=
  if st.active then
    (st, some (BlockError.invalidState
      "Cannot set preloaded libraries for active block."))
  else
    ({ st with dynLibs := [], dynLibPaths := libraries }, none)

/-- The outcome of running a Lua callable under `sol`'s protected call,
before `safeLuaCall` translates it for the host:
* `value` — the call returned and `pfr.valid()` holds;
* `invalid` — the call returned but `pfr.valid()` is false; the result
  converts to a `sol::error` whose `what()` is the message;
* `thrown` — a `sol::error` propagated out of the call itself
  (`SOL_EXCEPTIONS_SAFE_PROPAGATION`), with its `what()` text. -/
inductive RawLuaResult (β : Type) where
  | value (b : β)
  | invalid (errMsg : String)
  | thrown (errMsg : String)
  deriving DecidableEq, Repr

/-- The error text carried by a non-`value` raw result. -/
def RawLuaResult.errText {β : Type} : RawLuaResult β → Option String
  | RawLuaResult.value _ => none
  | RawLuaResult.invalid m => some m
  | RawLuaResult.thrown m => some m

/-- Model of `safeLuaCall`: run the protected call and translate the outcome for
the host.  An invalid result is converted to a `sol::error` and
re-thrown as `Pothos::Exception(err.what())`; a `sol::error` caught in
flight is re-thrown the same way.  `Except.error` is the single host
exception, carrying the Lua error text unchanged. -/
def safeLuaCall {β : Type} : RawLuaResult β → Except String β
  | RawLuaResult.value b => Except.ok b
  | RawLuaResult.invalid m => Except.error m
  | RawLuaResult.thrown m => Except.error m

/-- The five positional values `BlockEnv.CallBlockFunction` passes to
the user function:
`fcn(inputBuffersFFI, #inputBuffers, outputBuffersFFI, #outputBuffers,
elems)`.  Buffer addresses are bare numbers: only pointers cross the
boundary, never buffer contents. -/
structure CallArgs where
  inputAddrs : List Nat
  numInputs : Nat
  outputAddrs : List Nat
  numOutputs : Nat
  elems : Nat
  deriving DecidableEq, Repr

/-- The `for i = 1,#bufs` loop of `CallBlockFunction`: copy each pointer,
in order, into a fresh FFI array of the same length. -/
def ffiCopy : List Nat → List Nat
  | [] => []
  | b :: rest => b :: ffiCopy rest

/-- The five positional values marshalled by `CallBlockFunction` from
the host's pointer lists and element count:
`(inputBuffersFFI, #inputBuffers, outputBuffersFFI, #outputBuffers,
elems)`. -/
def marshalArgs (inputBuffers outputBuffers : List Nat) (elems : Nat) :
    CallArgs :=
  { inputAddrs := ffiCopy inputBuffers
    numInputs := inputBuffers.length
    outputAddrs := ffiCopy outputBuffers
    numOutputs := outputBuffers.length
    elems := elems }

/-- Model of `BlockEnv.CallBlockFunction fcn inputBuffers outputBuffers elems`:
copy both pointer lists into fresh FFI arrays, then call the user
function once with the five positional values.  The result pairs the
arguments actually passed with the user function's raw outcome. -/
def CallBlockFunction (fcn : CallArgs → RawLuaResult Unit)
    (inputBuffers outputBuffers : List Nat) (elems : Nat) :
    CallArgs × RawLuaResult Unit :=
  let args := marshalArgs inputBuffers outputBuffers elems
  (args, fcn args)

/-- The slice of `Pothos::WorkInfo` that `work` reads: `minElements`
(the scheduler's minimum of available input elements and output
capacity across all ports) and the per-port pointer lists. -/
structure WorkInfo where
  minElements : Nat
  inputPointers : List Nat
  outputPointers : List Nat
  deriving DecidableEq, Repr

/-- Model of `LuaJITBlock::work`.  `fcn` is the Lua runtime's behaviour of the
bound `_blockFcn`.  The result carries the state after the call, the
trace of user-function invocations made (with the arguments passed),
and the exception thrown, if any.  As in the source: the `_functionSet`
guard comes first; then the zero-element early return; then the
protected marshalled call; `consume`/`produce` run only when the call
did not throw. -/
def work (fcn : CallArgs → RawLuaResult Unit) (wi : WorkInfo)
    (st : NodeState) : NodeState × List CallArgs × Option BlockError :=
  if st.functionSet = false then
    (st, [], some BlockError.noFunctionBound)
  else
    let elems := wi.minElements
    if elems = 0 then (st, [], none)
    else
      let call := CallBlockFunction fcn wi.inputPointers wi.outputPointers elems
      match safeLuaCall call.2 with
      | Except.error m =>
          (st, [call.1], some (BlockError.scriptExecutionError m))
      | Except.ok _ =>
          ({ st with
              inputCursors := st.inputCursors.map (fun c => c + elems)
              outputCursors := st.outputCursors.map (fun c => c + elems) },
            [call.1], none)

/-- The `std::transform` over `_dynLibPaths` with a `back_inserter`
into `_dynLibs` in `LuaJITBlock::activate`: each path is loaded and
appended in order; the first failing load throws, leaving the libraries
appended so far in place.  `loadLib` models `ScopedDynLib::load`
(`none` = the `Poco::SharedLibrary` constructor threw). -/
def activateLoop (loadLib : String → Option String) :
    List String → List String → List String × Option BlockError
  | [], libs => (libs, none)
  | path :: rest, libs =>
      match loadLib path with
      | some lib => activateLoop loadLib rest (libs ++ [lib])
      | none => (libs, some (BlockError.nativeLibraryLoadError path))

/-- Model of `LuaJITBlock::activate`: load every pending library. -/
def activate (loadLib : String → Option String) (st : NodeState) :
    NodeState × Option BlockError :=
  let r := activateLoop loadLib st.dynLibPaths st.dynLibs
  ({ st with dynLibs := r.1 }, r.2)

/-- Model of `LuaJITBlock::deactivate`: `_dynLibs.clear()`, releasing every
loaded library. -/
def deactivate (st : NodeState) : NodeState :=
  { st with dynLibs := [] }

/-- The factory arguments assembled by `LuaJITConfLoader`
(src/LuaJITConfLoader.cpp, `struct FactoryArgs`). -/
structure FactoryArgs where
  factory : String
  sourceFilepath : String
  functionName : String
  inputTypes : List String
  outputTypes : List String
  deriving DecidableEq, Repr

/-- What `LuaJITConfLoader` computes from a conf mapping: the factory
arguments plus the documentation source path fed to the block
description parser. -/
structure ConfLoadResult where
  args : FactoryArgs
  docSourceFilepath : String
  deriving DecidableEq, Repr

/-- Model of `stringTokenizerToVector` over `Poco::StringTokenizer` with
separators space and tab, `TOK_IGNORE_EMPTY | TOK_TRIM`. -/
def tokenizeTypes (s : String) : List String :=
  ((s.split (fun c => c = ' ' || c = '\t')).map String.trim).filter
    (fun t => t ≠ "")

/-- Lines 134-146 of src/LuaJITConfLoader.cpp: choose the documentation
source path.  When the `doc_source` key is present the code reads
`sourceIter->second` — the `source` key's value — to build the path and
checks that file's existence; only when `doc_source` is absent does it
fall back to the already computed `sourceFilepath`.  `pathJoin` models
`Poco::Path(rootDir, rel).toString()`. -/
def docSourceFor (pathJoin : String → String → String)
    (fileExists : String → Bool) (rootDir : String)
    (config : List (String × String)) (sourceFilepath : String) :
    Except String String :=
  match config.lookup "doc_source" with
  | some _ =>
      let fp := pathJoin rootDir ((config.lookup "source").getD "")
      if fileExists fp then Except.ok fp
      else Except.error ("File not found: " ++ fp)
  | none => Except.ok sourceFilepath

/-- Model of `LuaJITConfLoader` up to the block-description parse: extract and
validate every config key in source order.  `pathJoin` and `makeParent`
model the `Poco::Path` operations, `fileExists` the filesystem, and
`pluginPath` the `Pothos::PluginPath` syntax check and normalisation
(`none` = the constructor threw). -/
def LuaJITConfLoader (pathJoin : String → String → String)
    (makeParent : String → String) (fileExists : String → Bool)
    (pluginPath : String → Option String)
    (config : List (String × String)) : Except String ConfLoadResult := do
  let confFilePath ←
    match config.lookup "confFilePath" with
    | some v => Except.ok v
    | none => Except.error "No conf filepath"
  let rootDir := makeParent confFilePath
  let factory ←
    match config.lookup "factory" with
    | some v =>
        match pluginPath v with
        | some p => Except.ok p
        | none => Except.error "Invalid plugin path"
    | none => Except.error "No factory"
  let sourceFilepath ←
    match config.lookup "source" with
    | some v =>
        let fp := pathJoin rootDir v
        if fileExists fp then Except.ok fp
        else Except.error ("File not found: " ++ fp)
    | none => Except.error "No source"
  let functionName ←
    match config.lookup "function" with
    | some v => Except.ok v
    | none => Except.error "No function name"
  let inputTypes ←
    match config.lookup "input_types" with
    | some v => Except.ok (tokenizeTypes v)
    | none => Except.error "No input types"
  let outputTypes ←
    match config.lookup "output_types" with
    | some v => Except.ok (tokenizeTypes v)
    | none => Except.error "No output types"
  let docSourceFilepath ←
    docSourceFor pathJoin fileExists rootDir config sourceFilepath
  Except.ok
    { args :=
        { factory := factory
          sourceFilepath := sourceFilepath
          functionName := functionName
          inputTypes := inputTypes
          outputTypes := outputTypes }
      docSourceFilepath := docSourceFilepath }

/-!
Concrete sample data, used by the closed witness and counterexample
theorems below.
-/

/-- A loaded user environment holding one function and one number. -/
def sampleEnv : LuaEnv :=
  [("process", { ty := LuaType.function, ref := 0 }),
   ("threshold", { ty := LuaType.number, ref := 1 })]

/-- A Lua chunk loader that accepts one known chunk text. -/
def sampleParse : String → Except String LuaEnv := fun s =>
  if s = "good chunk" then Except.ok sampleEnv
  else Except.error "[string]:1: unexpected symbol"

/-- A filesystem with one Lua file holding the known chunk text. -/
def sampleFiles : String → Option String := fun p =>
  if p = "/tmp/block.lua" then some "good chunk" else none

/-- A freshly constructed two-input one-output node. -/
def sampleState : NodeState :=
  makeBlock ["float32", "float32"] ["float32"]

/-- The sample node after a successful `setSource` bound `process`. -/
def boundState : NodeState :=
  { sampleState with
      functionSet := true
      blockFcn := some { ty := LuaType.function, ref := 0 }
      userEnv := some sampleEnv }

/-- A scheduler tick offering four elements on two inputs, one output. -/
def sampleWorkInfo : WorkInfo :=
  { minElements := 4, inputPointers := [100, 200], outputPointers := [300] }

/-- A user function that always returns normally. -/
def okFcn : CallArgs → RawLuaResult Unit := fun _ => RawLuaResult.value ()

/-- A user function that always raises a Lua runtime error. -/
def failFcn : CallArgs → RawLuaResult Unit := fun _ =>
  RawLuaResult.thrown "attempt to index a nil value"

/-- A dynamic loader for which exactly one library path fails. -/
def sampleLoadLib : String → Option String := fun p =>
  if p = "libbad.so" then none else some p

/-- The sample node with two pending libraries, the second failing. -/
def libState : NodeState :=
  { sampleState with dynLibPaths := ["libgood.so", "libbad.so"] }

/-- The FFI copy loop reproduces the pointer list exactly, in order. -/
theorem ffiCopy_eq (l : List Nat) : ffiCopy l = l := by
  induction l with
  | nil => rfl
  | cons b rest ih => simp [ffiCopy, ih]

/-- C10: on a node where no `setSource` ever succeeded
(`functionSet = false`), every `work` call fails with the
`NoFunctionBound` error for every WorkInfo — the bound-function check
precedes the zero-element short-circuit, so even a zero-element tick
raises instead of being a no-op; no state changes and the user callable
is never invoked. -/
theorem work_without_binding_always_fails
    (fcn : CallArgs → RawLuaResult Unit) (wi : WorkInfo) (st : NodeState)
    (h : st.functionSet = false) :
    work fcn wi st = (st, [], some BlockError.noFunctionBound) := by
  simp [work, h]

/-- Witness for C10: a fresh node with a zero-element tick still raises
`NoFunctionBound` rather than no-op returning. -/
theorem work_without_binding_always_fails_witness :
    work okFcn { minElements := 0, inputPointers := [], outputPointers := [] }
        sampleState
      = (sampleState, [], some BlockError.noFunctionBound) :=
  work_without_binding_always_fails okFcn
    { minElements := 0, inputPointers := [], outputPointers := [] }
    sampleState rfl

/-- C7: on an Active node with a bound function, `work` with an
available element count of zero is a no-op: no error, no invocation of
the user callable (empty trace), and the state is returned unchanged. -/
theorem work_zero_elements_noop
    (fcn : CallArgs → RawLuaResult Unit) (wi : WorkInfo) (st : NodeState)
    (hset : st.functionSet = true) (hzero : wi.minElements = 0) :
    work fcn wi st = (st, [], none) := by
  simp [work, hset, hzero]

/-- Witness for C7: the bound sample node, offered zero elements,
returns unchanged with no error and no invocation. -/
theorem work_zero_elements_noop_witness :
    work failFcn { minElements := 0, inputPointers := [], outputPointers := [] }
        boundState
      = (boundState, [], none) :=
  work_zero_elements_noop failFcn
    { minElements := 0, inputPointers := [], outputPointers := [] }
    boundState rfl rfl

/-- C6: on an Active node, both `setSource` and
`setPreloadedLibraries` fail with the `InvalidState` error
(`Pothos::RuntimeException`) and return the state completely unchanged:
the prior binding, the loaded-library set and everything else stay as
they were. -/
theorem setters_fail_invalid_state_when_active
    (parse : String → Except String LuaEnv)
    (fileContents : String → Option String) (st : NodeState)
    (luaSource functionName : String) (libraries : List String)
    (hact : st.active = true) :
    setSource parse fileContents st luaSource functionName
      = (st, some (BlockError.invalidState
          "Cannot set source for active block.")) ∧
    setPreloadedLibraries st libraries
      = (st, some (BlockError.invalidState
          "Cannot set preloaded libraries for active block.")) := by
  constructor
  · simp [setSource, hact]
  · simp [setPreloadedLibraries, hact]

/-- Witness for C6: an activated bound node rejects both setters and is
left exactly as it was. -/
theorem setters_fail_invalid_state_when_active_witness :
    setSource sampleParse sampleFiles { boundState with active := true }
        "good chunk" "process"
      = ({ boundState with active := true },
         some (BlockError.invalidState
           "Cannot set source for active block.")) ∧
    setPreloadedLibraries { boundState with active := true } ["libgood.so"]
      = ({ boundState with active := true },
         some (BlockError.invalidState
           "Cannot set preloaded libraries for active block.")) :=
  setters_fail_invalid_state_when_active sampleParse sampleFiles
    { boundState with active := true } "good chunk" "process" ["libgood.so"]
    rfl

/-- C8: every invocation through the protected-call boundary
(`safeLuaCall`) maps a script runtime failure — whether the protected
result is invalid or a `sol::error` propagated out of the call — to the
single host exception (`Except.error`, the `Pothos::Exception`) whose
message is the underlying runtime's error text, unmodified; a valid
result passes through as `Except.ok`, so no foreign error
representation escapes the boundary. -/
theorem safeLuaCall_unifies_errors {β : Type} (r : RawLuaResult β) :
    (∀ m, r.errText = some m → safeLuaCall r = Except.error m) ∧
    (∀ b, r = RawLuaResult.value b → safeLuaCall r = Except.ok b) := by
  cases r <;> simp [safeLuaCall, RawLuaResult.errText]

/-- Witness for C8: a Lua error raised during the call surfaces as the
host error with the identical message text. -/
theorem safeLuaCall_unifies_errors_witness :
    safeLuaCall (RawLuaResult.thrown "attempt to index a nil value"
        : RawLuaResult Unit)
      = Except.error "attempt to index a nil value" :=
  (safeLuaCall_unifies_errors
    (RawLuaResult.thrown "attempt to index a nil value" : RawLuaResult Unit)).1
    "attempt to index a nil value" rfl

/-- C1: on an Active node with a bound function and available element
count `elems > 0`, `work` performs the marshalled call and, only when
it succeeds, consumes `elems` elements on every input port and produces
`elems` elements on every output port (every cursor advances by
`elems`); when the call raises, `work` propagates the error as the
`ScriptExecutionError` host exception and returns the state unchanged —
no input or output cursor advances. -/
theorem work_invokes_and_advances_only_on_success
    (fcn : CallArgs → RawLuaResult Unit) (wi : WorkInfo) (st : NodeState)
    (hset : st.functionSet = true) (hpos : 0 < wi.minElements) :
    (fcn (marshalArgs wi.inputPointers wi.outputPointers wi.minElements)
        = RawLuaResult.value () →
      work fcn wi st =
        ({ st with
            inputCursors := st.inputCursors.map (fun c => c + wi.minElements)
            outputCursors := st.outputCursors.map (fun c => c + wi.minElements) },
          [marshalArgs wi.inputPointers wi.outputPointers wi.minElements],
          none)) ∧
    (∀ m,
      (fcn (marshalArgs wi.inputPointers wi.outputPointers wi.minElements)).errText
          = some m →
      work fcn wi st =
        (st, [marshalArgs wi.inputPointers wi.outputPointers wi.minElements],
          some (BlockError.scriptExecutionError m))) := by
  have hne : wi.minElements ≠ 0 := Nat.pos_iff_ne_zero.mp hpos
  constructor
  · intro hok
    simp [work, hset, hne, CallBlockFunction, hok, safeLuaCall]
  · intro m hm
    cases hfr : fcn (marshalArgs wi.inputPointers wi.outputPointers wi.minElements)
      with
    | value b => rw [hfr] at hm; simp [RawLuaResult.errText] at hm
    | invalid m2 =>
        rw [hfr] at hm
        simp [RawLuaResult.errText] at hm
        subst hm
        simp [work, hset, hne, CallBlockFunction, hfr, safeLuaCall]
    | thrown m2 =>
        rw [hfr] at hm
        simp [RawLuaResult.errText] at hm
        subst hm
        simp [work, hset, hne, CallBlockFunction, hfr, safeLuaCall]

/-- Witness for C1: the bound sample node on a four-element tick — a
succeeding call advances all three cursors by four, a raising call
leaves the state untouched and surfaces `ScriptExecutionError`. -/
theorem work_invokes_and_advances_only_on_success_witness :
    work okFcn sampleWorkInfo boundState =
      ({ boundState with
          inputCursors := [4, 4], outputCursors := [4] },
        [marshalArgs [100, 200] [300] 4], none) ∧
    work failFcn sampleWorkInfo boundState =
      (boundState, [marshalArgs [100, 200] [300] 4],
        some (BlockError.scriptExecutionError
          "attempt to index a nil value")) := by
  constructor
  · have h := (work_invokes_and_advances_only_on_success okFcn sampleWorkInfo
      boundState rfl (by decide)).1 rfl
    rw [h]
    rfl
  · have h := (work_invokes_and_advances_only_on_success failFcn sampleWorkInfo
      boundState rfl (by decide)).2 "attempt to index a nil value" rfl
    rw [h]
    rfl

/-- C2: on an Active node with a bound function and `elems > 0`, each
`work` call invokes the user callable exactly once (the invocation
trace is a singleton), passing exactly the five positional values
`(inputAddrs, numInputs, outputAddrs, numOutputs, elementCount)`:
`inputAddrs` is the node's input pointer list in port order,
`numInputs` the declared input arity (one pointer per declared input
port), likewise for outputs, and `elementCount` equals `elems`.  Only
the pointer values cross the boundary — no buffer contents appear in
the arguments. -/
theorem work_marshals_five_positional_args_once
    (fcn : CallArgs → RawLuaResult Unit) (wi : WorkInfo) (st : NodeState)
    (hset : st.functionSet = true) (hpos : 0 < wi.minElements)
    (harityIn : wi.inputPointers.length = st.inputCursors.length)
    (harityOut : wi.outputPointers.length = st.outputCursors.length) :
    (work fcn wi st).2.1 =
      [{ inputAddrs := wi.inputPointers
         numInputs := st.inputCursors.length
         outputAddrs := wi.outputPointers
         numOutputs := st.outputCursors.length
         elems := wi.minElements }] := by
  have hne : wi.minElements ≠ 0 := Nat.pos_iff_ne_zero.mp hpos
  simp only [work, hset, Bool.true_eq_false, if_false, hne, if_neg,
    CallBlockFunction]
  cases hfr : fcn (marshalArgs wi.inputPointers wi.outputPointers wi.minElements)
    <;> simp [hfr, safeLuaCall, marshalArgs, ffiCopy_eq, harityIn, harityOut]

/-- Witness for C2: the bound two-input one-output sample node passes
`([100, 200], 2, [300], 1, 4)` in a single invocation. -/
theorem work_marshals_five_positional_args_once_witness :
    (work okFcn sampleWorkInfo boundState).2.1 =
      [{ inputAddrs := [100, 200]
         numInputs := 2
         outputAddrs := [300]
         numOutputs := 1
         elems := 4 }] :=
  work_marshals_five_positional_args_once okFcn sampleWorkInfo boundState
    rfl (by decide) rfl rfl

/-- C3: on an inactive node and a source that loads successfully, if
the named entry point is absent from the loaded environment,
`setSource` fails with the `EntryPointNotFound` error naming the
function; if the name is present but its value is not a function, it
fails with `EntryPointNotCallable` reporting the actual Lua type name
found.  In both cases the node stays idle with its prior binding
intact: `active`, `functionSet`, `blockFcn` and the library fields all
keep their previous values (only the freshly loaded environment slot
`userEnv` now holds the newly loaded chunk, as its assignment precedes
the entry-point checks in the source). -/
theorem setSource_entry_point_errors_preserve_binding
    (parse : String → Except String LuaEnv)
    (fileContents : String → Option String) (st : NodeState)
    (luaSource functionName : String) (env : LuaEnv)
    (hact : st.active = false)
    (hload : loadUserEnv parse fileContents luaSource = Except.ok env) :
    (env.lookup functionName = none →
      setSource parse fileContents st luaSource functionName
        = ({ st with userEnv := some env },
           some (BlockError.entryPointNotFound functionName))) ∧
    (∀ obj, env.lookup functionName = some obj →
      obj.ty ≠ LuaType.function →
      setSource parse fileContents st luaSource functionName
        = ({ st with userEnv := some env },
           some (BlockError.entryPointNotCallable functionName
             (luaTypeName obj.ty)))) := by
  constructor
  · intro hno
    simp [setSource, hact, hload, hno]
  · intro obj hobj hty
    simp [setSource, hact, hload, hobj, hty]

/-- Witness for C3: looking up a missing name fails with
`EntryPointNotFound`; looking up the number-valued `threshold` fails
with `EntryPointNotCallable` reporting "number" — both leave the
binding fields of the fresh node as they were. -/
theorem setSource_entry_point_errors_preserve_binding_witness :
    setSource sampleParse sampleFiles sampleState "good chunk" "missing"
      = ({ sampleState with userEnv := some sampleEnv },
         some (BlockError.entryPointNotFound "missing")) ∧
    setSource sampleParse sampleFiles sampleState "good chunk" "threshold"
      = ({ sampleState with userEnv := some sampleEnv },
         some (BlockError.entryPointNotCallable "threshold" "number")) := by
  constructor
  · exact (setSource_entry_point_errors_preserve_binding sampleParse
      sampleFiles sampleState "good chunk" "missing" sampleEnv rfl rfl).1
      (by decide)
  · exact (setSource_entry_point_errors_preserve_binding sampleParse
      sampleFiles sampleState "good chunk" "threshold" sampleEnv rfl rfl).2
      { ty := LuaType.number, ref := 1 } (by decide) (by decide)

/-- C4: dispatch of the source string in `setSource`.  A string with
the recognized `.lua` extension naming an existing file is loaded from
that file's contents; with the extension but no such file, loading
fails with `SourceNotFound`; any other string is treated as literal
chunk text; and in either loading mode, invalid chunk text fails with
`ScriptLoadError` carrying the Lua diagnostic unchanged. -/
theorem loadUserEnv_extension_and_existence_dispatch
    (parse : String → Except String LuaEnv)
    (fileContents : String → Option String) (src : String) :
    (∀ contents env, getExtension src = "lua" →
      fileContents src = some contents → parse contents = Except.ok env →
      loadUserEnv parse fileContents src = Except.ok env) ∧
    (∀ contents msg, getExtension src = "lua" →
      fileContents src = some contents → parse contents = Except.error msg →
      loadUserEnv parse fileContents src
        = Except.error (BlockError.scriptLoadError msg)) ∧
    (getExtension src = "lua" → fileContents src = none →
      loadUserEnv parse fileContents src
        = Except.error (BlockError.sourceNotFound src)) ∧
    (∀ env, getExtension src ≠ "lua" → parse src = Except.ok env →
      loadUserEnv parse fileContents src = Except.ok env) ∧
    (∀ msg, getExtension src ≠ "lua" → parse src = Except.error msg →
      loadUserEnv parse fileContents src
        = Except.error (BlockError.scriptLoadError msg)) := by
  refine ⟨?_, ?_, ?_, ?_, ?_⟩
  · intro contents env hext hfile hparse
    simp [loadUserEnv, hext, hfile, hparse]
  · intro contents msg hext hfile hparse
    simp [loadUserEnv, hext, hfile, hparse]
  · intro hext hfile
    simp [loadUserEnv, hext, hfile]
  · intro env hext hparse
    simp [loadUserEnv, hext, hparse]
  · intro msg hext hparse
    simp [loadUserEnv, hext, hparse]

/-- Witness for C4, exercising all four outcomes: the existing
`/tmp/block.lua` loads from file contents; a missing `.lua` path fails
with `SourceNotFound`; the literal chunk text loads directly; invalid
literal text fails with `ScriptLoadError` carrying the diagnostic. -/
theorem loadUserEnv_extension_and_existence_dispatch_witness :
    loadUserEnv sampleParse sampleFiles "/tmp/block.lua"
      = Except.ok sampleEnv ∧
    loadUserEnv sampleParse sampleFiles "/tmp/absent.lua"
      = Except.error (BlockError.sourceNotFound "/tmp/absent.lua") ∧
    loadUserEnv sampleParse sampleFiles "good chunk"
      = Except.ok sampleEnv ∧
    loadUserEnv sampleParse sampleFiles "bad chunk"
      = Except.error (BlockError.scriptLoadError
          "[string]:1: unexpected symbol") := by
  refine ⟨?_, ?_, ?_, ?_⟩
  · exact (loadUserEnv_extension_and_existence_dispatch sampleParse
      sampleFiles "/tmp/block.lua").1 "good chunk" sampleEnv rfl rfl rfl
  · exact (loadUserEnv_extension_and_existence_dispatch sampleParse
      sampleFiles "/tmp/absent.lua").2.2.1 rfl rfl
  · exact (loadUserEnv_extension_and_existence_dispatch sampleParse
      sampleFiles "good chunk").2.2.2.1 sampleEnv (by decide) rfl
  · exact (loadUserEnv_extension_and_existence_dispatch sampleParse
      sampleFiles "bad chunk").2.2.2.2 "[string]:1: unexpected symbol"
      (by decide) rfl

/-- Helper for C5: running the `activate` load loop over paths that
split as `pre ++ p :: suf`, where every path in `pre` loads and `p`
fails, appends exactly the libraries of `pre` to the accumulator and
stops with the load error for `p` — the paths after `p` are never
attempted and nothing is rolled back. -/
theorem activateLoop_stops_at_first_failing
    (loadLib : String → Option String) (p : String) (suf : List String)
    (hfail : loadLib p = none) :
    ∀ (pre : List String) (libs : List String),
      (∀ q ∈ pre, (loadLib q).isSome) →
      activateLoop loadLib (pre ++ p :: suf) libs
        = (libs ++ pre.filterMap loadLib,
           some (BlockError.nativeLibraryLoadError p)) := by
  intro pre
  induction pre with
  | nil =>
      intro libs _
      simp [activateLoop, hfail]
  | cons q rest ih =>
      intro libs hq
      obtain ⟨lib, hlib⟩ := Option.isSome_iff_exists.mp (hq q (by simp))
      have hrest : ∀ r ∈ rest, (loadLib r).isSome := fun r hr =>
        hq r (List.mem_cons_of_mem q hr)
      simp only [List.cons_append, activateLoop, hlib, List.append_eq]
      rw [ih (libs ++ [lib]) hrest]
      simp [List.filterMap_cons, hlib]

/-- C5 counterexample: a node with pending libraries
`["libgood.so", "libbad.so"]` under a loader that fails on the second.
`activate` fails, but the loaded-library set is `["libgood.so"]`, not
empty — the library loaded before the failing one IS left loaded,
refuting the all-or-nothing part of the claim. -/
theorem activate_partial_load_counterexample :
    (activate sampleLoadLib libState).2
      = some (BlockError.nativeLibraryLoadError "libbad.so") ∧
    (activate sampleLoadLib libState).1.dynLibs = ["libgood.so"] ∧
    ["libgood.so"] ≠ ([] : List String) := by
  refine ⟨rfl, rfl, by decide⟩

/-- C5 amended: for every list of pending library paths, `activate`
loads each library in sequence; when a library fails to load,
activation fails with the load error for the first failing path, and
the libraries loaded before it remain appended to the node's loaded
set — a partial set is left loaded (it is released only by a later
`deactivate` or destruction). -/
theorem activate_failure_retains_previously_loaded
    (loadLib : String → Option String) (st : NodeState)
    (pre : List String) (p : String) (suf : List String)
    (hsplit : st.dynLibPaths = pre ++ p :: suf)
    (hpre : ∀ q ∈ pre, (loadLib q).isSome)
    (hfail : loadLib p = none) :
    activate loadLib st
      = ({ st with dynLibs := st.dynLibs ++ pre.filterMap loadLib },
         some (BlockError.nativeLibraryLoadError p)) := by
  simp only [activate, hsplit]
  rw [activateLoop_stops_at_first_failing loadLib p suf hfail pre st.dynLibs hpre]

/-- Witness for C5 amended: the concrete two-library node — activation
fails on `libbad.so` and `libgood.so` stays loaded. -/
theorem activate_failure_retains_previously_loaded_witness :
    activate sampleLoadLib libState
      = ({ libState with dynLibs := ["libgood.so"] },
         some (BlockError.nativeLibraryLoadError "libbad.so")) := by
  have h := activate_failure_retains_previously_loaded sampleLoadLib libState
    ["libgood.so"] "libbad.so" [] rfl (by decide) rfl
  rw [h]
  rfl

/-- C9: when the optional `doc_source` key is present in the conf
mapping, the loader resolves the documentation file path from the
`source` key's value (the code reads `sourceIter->second` at the
`doc_source` branch), for every value `d` of `doc_source` and every
previously computed source file path — so the `doc_source` value is
never used to locate the documentation file.  The second conjunct lifts
this to the whole loader: any successful load reports the
source-derived path as the documentation source path, whatever
`doc_source` holds. -/
theorem confLoader_doc_source_resolved_from_source_key
    (pathJoin : String → String → String) (makeParent : String → String)
    (fileExists : String → Bool) (pluginPath : String → Option String)
    (config : List (String × String)) (cfp src d : String)
    (hc : config.lookup "confFilePath" = some cfp)
    (hd : config.lookup "doc_source" = some d)
    (hs : config.lookup "source" = some src)
    (hex : fileExists (pathJoin (makeParent cfp) src) = true) :
    (∀ sourceFilepath,
      docSourceFor pathJoin fileExists (makeParent cfp) config sourceFilepath
        = Except.ok (pathJoin (makeParent cfp) src)) ∧
    (∀ r, LuaJITConfLoader pathJoin makeParent fileExists pluginPath config
        = Except.ok r →
      r.docSourceFilepath = pathJoin (makeParent cfp) src) := by
  constructor
  · intro sourceFilepath
    simp [docSourceFor, hd, hs, hex]
  · intro r hr
    simp only [LuaJITConfLoader, hc, hs, hd, hex, docSourceFor, Bind.bind,
      Except.bind, if_true] at hr
    repeat' split at hr
    all_goals try (injection hr with hr; subst hr)
    all_goals simp_all

/-- Witness for C9: a concrete mapping whose `doc_source` value names a
different file; the resolved documentation path is built from the
`source` value `block.lua`, ignoring `ignored.lua`. -/
theorem confLoader_doc_source_resolved_from_source_key_witness :
    docSourceFor (fun a b => a ++ b) (fun _ => true) "/etc/pothos/"
        [("confFilePath", "/etc/pothos/my.conf"),
         ("factory", "/luajit/myblock"),
         ("source", "block.lua"),
         ("function", "process"),
         ("input_types", "float32 float32"),
         ("output_types", "float32"),
         ("doc_source", "ignored.lua")] "unused"
      = Except.ok "/etc/pothos/block.lua" :=
  (confLoader_doc_source_resolved_from_source_key (fun a b => a ++ b)
    (fun _ => "/etc/pothos/") (fun _ => true) some
    [("confFilePath", "/etc/pothos/my.conf"),
     ("factory", "/luajit/myblock"),
     ("source", "block.lua"),
     ("function", "process"),
     ("input_types", "float32 float32"),
     ("output_types", "float32"),
     ("doc_source", "ignored.lua")]
    "/etc/pothos/my.conf" "block.lua" "ignored.lua"
    rfl rfl rfl rfl).1 "unused"

end PothosLuaJIT
